import Mathlib

/-!
Verification of the core logic of a volunteer-event coordination app.

The development shallowly embeds the program's check-in proximity logic
(`calculateDistance`, `isNearPosition`), the live issue feed (`addIssue`, the
staffing interval tick, the signup-insert subscription handler, the displayed
feed filter), the eligible-volunteers query together with the arrival update,
and the CSV save path, and proves (or refutes) the specification's claims
about them.

Conventions used throughout:
* JavaScript numbers are modeled as real numbers (`ℝ`) where the code does
  arithmetic on coordinates, and as `Nat` for the integer counts
  `filled`/`needed`.
* Nullable values (`null`/`undefined`, absent object fields, failed lookups)
  are modeled as `Option`.
* Database timestamps (`start_time`) are modeled as `Nat` time values ordered
  chronologically; only their ordering is relevant to any claim.
* The external data service (Supabase/PostgREST) is modeled as an in-memory
  list of rows; `update ... eq(id, x)` maps over the rows, and
  `order(start_time, ascending)` is modeled as a stable sort
  (`List.mergeSort`) of the table rows in insertion order.
-/

namespace VolunteerCheckIn

/-! ## Geographic distance and the proximity gate
(`EventsOverviewPage.tsx`, `calculateDistance` lines 1121-1134 and
`isNearPosition` lines 1137-1151) -/

/-- A user location as produced by the geolocation API: `{lat, lng}`. -/
structure Coords where
  lat : ℝ
  lng : ℝ

open Classical in
/-- Model of JavaScript `Math.atan2 y x` on real inputs (the signed-zero
distinction of IEEE floats does not exist in `ℝ`; the haversine use site only
ever calls it with nonnegative arguments). -/
noncomputable def atan2 (y x : ℝ) : ℝ :=
  if 0 < x then Real.arctan (y / x)
  else if x < 0 then
    (if 0 ≤ y then Real.arctan (y / x) + Real.pi else Real.arctan (y / x) - Real.pi)
  else if 0 < y then Real.pi / 2
  else if y < 0 then -(Real.pi / 2)
  else 0

/-- The intermediate haversine quantity `a` of `calculateDistance`:
`a = sin(dphi/2)*sin(dphi/2) + cos(phi1)*cos(phi2)*sin(dlam/2)*sin(dlam/2)`
with angles converted from degrees to radians exactly as the source does. -/
noncomputable def havA (lat1 lon1 lat2 lon2 : ℝ) : ℝ :=
  Real.sin ((lat2 - lat1) * Real.pi / 180 / 2) * Real.sin ((lat2 - lat1) * Real.pi / 180 / 2) +
    Real.cos (lat1 * Real.pi / 180) * Real.cos (lat2 * Real.pi / 180) *
      Real.sin ((lon2 - lon1) * Real.pi / 180 / 2) * Real.sin ((lon2 - lon1) * Real.pi / 180 / 2)

/-- `calculateDistance` (lines 1121-1134): haversine great-circle distance in
meters, Earth radius `6371e3`. -/
noncomputable def calculateDistance (lat1 lon1 lat2 lon2 : ℝ) : ℝ :=
  let R : ℝ := 6371000
  let phi1 := lat1 * Real.pi / 180
  let phi2 := lat2 * Real.pi / 180
  let dphi := (lat2 - lat1) * Real.pi / 180
  let dlam := (lon2 - lon1) * Real.pi / 180
  let a := Real.sin (dphi / 2) * Real.sin (dphi / 2) +
    Real.cos phi1 * Real.cos phi2 * Real.sin (dlam / 2) * Real.sin (dlam / 2)
  let c := 2 * atan2 (Real.sqrt a) (Real.sqrt (1 - a))
  R * c

theorem calculateDistance_eq (lat1 lon1 lat2 lon2 : ℝ) :
    calculateDistance lat1 lon1 lat2 lon2 =
      6371000 * (2 * atan2 (Real.sqrt (havA lat1 lon1 lat2 lon2))
        (Real.sqrt (1 - havA lat1 lon1 lat2 lon2))) := rfl

/-- `isNearPosition` (lines 1137-1151), as the proposition "the function
returns `true`". The guard is
`if (!userLocation || !position?.latitude || !position?.longitude) return true`:
JavaScript truthiness makes the guard fire not only when a value is missing
(`null`/`undefined`, modeled as `none`) but also when a coordinate equals `0`,
since `!0` is `true`. Otherwise the function returns
`calculateDistance(...) <= 200`. -/
def isNearPosition (userLocation : Option Coords) (posLat posLng : Option ℝ) : Prop :=
  match userLocation, posLat, posLng with
  | some u, some la, some lo => la = 0 ∨ lo = 0 ∨ calculateDistance u.lat u.lng la lo ≤ 200
  | _, _, _ => True

/-! ## Data model of the dashboard (`EventsOverviewPage.tsx` lines 19-53) -/

inductive IssueType where
  | error
  | warning
  | info
deriving DecidableEq, Repr

/-- The `event` object embedded in an `Issue`'s position reference; the only
field any modeled code reads from it is `name`. -/
structure IssueEventRef where
  name : String
deriving DecidableEq, Repr

/-- The optional `position` reference carried by an `Issue`. The staffing
monitor stores the position id; the signup-notification path stores an object
without an id field, hence `id : Option String`. -/
structure IssuePositionRef where
  id : Option String
  name : String
  event : IssueEventRef
deriving DecidableEq, Repr

/-- An entry of the live issues feed (`interface Issue`, lines 41-53). -/
structure Issue where
  id : String
  type : IssueType
  message : String
  timestamp : String
  position : Option IssuePositionRef
deriving DecidableEq, Repr

/-- An event row (`interface Event`, lines 19-24). -/
structure Event where
  id : String
  name : String
  date : String
  time : String
deriving DecidableEq, Repr

/-- A dashboard position row (`interface Position`, lines 26-39). -/
structure Position where
  id : String
  name : String
  needed : Nat
  filled : Nat
  latitude : ℝ
  longitude : ℝ
  event : Event

/-! ## The live issue feed -/

/-- `addIssue` (lines 157-159): `setIssues(prev => [newIssue, ...prev].slice(0, 100))` —
prepend the new issue and keep the first 100 entries. -/
def addIssue (feed : List Issue) (newIssue : Issue) : List Issue :=
  (newIssue :: feed).take 100

/-- The warning issue built by the staffing interval for an understaffed
position (lines 190-200). `uuid` and `now` stand for the fresh
`crypto.randomUUID()` and `new Date().toISOString()` values. -/
def mkStaffingWarning (uuid now : String) (p : Position) : Issue :=
  { id := uuid
    type := IssueType.warning
    message := "Position " ++ p.name ++ " is understaffed (" ++
      toString p.filled ++ "/" ++ toString p.needed ++ ")"
    timestamp := now
    position := some { id := some p.id, name := p.name, event := { name := p.event.name } } }

/-- One tick of `staffingInterval` (lines 186-204): iterate over the loaded
positions and, for each one with `filled < needed`, add a warning issue to the
feed. `uuidOf` supplies the fresh uuid generated for each position's issue and
`now` the shared tick timestamp. -/
def staffingTick (uuidOf : Position → String) (now : String)
    (positions : List Position) (feed : List Issue) : List Issue :=
  positions.foldl
    (fun f p => if p.filled < p.needed then addIssue f (mkStaffingWarning (uuidOf p) now p) else f)
    feed

/-- The row returned by the signup-notification lookup
`select('name, event:events(name)')` (lines 168-172): a position name and the
joined event's name — and nothing else. -/
structure LookupRow where
  name : String
  event : IssueEventRef
deriving DecidableEq, Repr

/-- The handler guard reads `(position?.event as any)?.id` (line 174), but the
lookup row carries no event id field (the select names only `name` and
`event:events(name)`), so this field access always yields `undefined`,
modeled as `none`. -/
def lookupEventIdField (_row : Option LookupRow) : Option String := none

/-- JavaScript template-literal rendering of `position?.name`: the string
itself when the row is present, the literal text `"undefined"` when the lookup
returned no row. -/
def jsShowName (row : Option LookupRow) : String :=
  match row with
  | some r => r.name
  | none => "undefined"

/-- The info issue built by the signup-insert handler (lines 175-181). The
`position` field is the raw lookup result (`position as any`): `none` when the
lookup failed, otherwise a reference without an id field. -/
def signupIssue (row : Option LookupRow) (volunteerName uuid now : String) : Issue :=
  { id := uuid
    type := IssueType.info
    message := "New volunteer " ++ volunteerName ++ " signed up for " ++ jsShowName row
    timestamp := now
    position := row.map fun r => { id := none, name := r.name, event := r.event } }

/-- The signup-insert subscription handler (lines 166-184) after the lookup
resolved to `row`: the issue is added when
`!selectedEventId || (position?.event as any)?.id === selectedEventId`. -/
def signupInsertHandler (selectedEventId : Option String) (row : Option LookupRow)
    (volunteerName uuid now : String) (feed : List Issue) : List Issue :=
  if selectedEventId = none ∨ lookupEventIdField row = selectedEventId then
    addIssue feed (signupIssue row volunteerName uuid now)
  else feed

/-- The Live Updates filter (lines 324-325):
`issues.filter(issue => !selectedEventId || issue.position?.event.name === events.find(e => e.id === selectedEventId)?.name)`.
Either side of the `===` may be `undefined` (issue without a position
reference; selected id matching no loaded event), which strict equality
compares as equal only to `undefined` itself — modeled as equality of
`Option String`. -/
def displayedIssues (issues : List Issue) (events : List Event)
    (selectedEventId : Option String) : List Issue :=
  issues.filter fun issue =>
    decide (selectedEventId = none ∨
      (issue.position.map fun p => p.event.name) =
        ((events.find? fun e => some e.id == selectedEventId).map fun e => e.name))

/-! ## Check-in page: volunteers query and the arrival update
(`EventsOverviewPage.tsx` lines 1040-1118) -/

/-- A `volunteer_signups` row. `start_time`/`end_time` are modeled as `Nat`
time values ordered chronologically. -/
structure Signup where
  id : String
  position_id : String
  volunteer_name : String
  start_time : Nat
  end_time : Nat
  arrived : Bool
deriving DecidableEq, Repr

/-- The arrival commit of `checkInMutation` (lines 1091-1094):
`update({ arrived: true }).eq('id', volunteerId)` — set `arrived` on every
row whose id matches the selected volunteer. -/
def checkInUpdate (db : List Signup) (volunteerId : String) : List Signup :=
  db.map fun s => if s.id == volunteerId then { s with arrived := true } else s

/-- One admissible response of the eligible-volunteers query (lines 1053-1058):
a stable sort by `start_time` of the matching rows in table (insertion) order.
The source's single-key `order('start_time', { ascending: true })` does not
determine the order of rows with equal `start_time`, so this function is only
one refinement of the query's contract (`volunteersQueryResponse` below); it
is used solely for facts that hold for every admissible response because they
are invariant under reordering, such as membership. -/
def volunteersQuery (db : List Signup) (positionId : String) : List Signup :=
  (db.filter fun s => s.position_id == positionId && s.arrived == false).mergeSort
    fun a b => decide (a.start_time ≤ b.start_time)

/-- The contract of the data service's single-key ordered read
`order('start_time', { ascending: true })`: the response is some permutation
of the matching rows that is ascending in `start_time`. Nothing constrains the
relative order of rows with equal `start_time`. -/
def ordersByStartTime (rows result : List Signup) : Prop :=
  result.Perm rows ∧ result.Pairwise fun a b => a.start_time ≤ b.start_time

/-- The eligible-volunteers query (lines 1053-1058) as the relation between
the table and an admissible response:
`select('*').eq('position_id', positionId).eq('arrived', false).order('start_time', { ascending: true })`
constrains the response to consist of exactly the rows of the position with
`arrived = false`, ascending in `start_time` — and constrains nothing else. -/
def volunteersQueryResponse (db : List Signup) (positionId : String)
    (result : List Signup) : Prop :=
  ordersByStartTime (db.filter fun s => s.position_id == positionId && s.arrived == false)
    result

/-! ## CSV save path (`SaveToSupabase.tsx` lines 20-63) -/

/-- A structured sign-up row produced by the import step (`types.ts`). -/
structure StructuredSignUpData where
  id : Nat
  position_ID : String
  volunteer_name : String
  volunteer_email : String
  start_date : String
  start_datetime : String
  end_datetime : String
  arrived : String
deriving DecidableEq, Repr

/-- A `volunteer_signups` insert record as built by `handleSaveToSupabase`. -/
structure VolunteerSignupInsert where
  position_id : String
  volunteer_name : String
  email : String
  start_time : String
  end_time : String
  arrived : Bool
deriving DecidableEq, Repr

/-- The per-row mapping of `handleSaveToSupabase` (lines 33-40). -/
def toVolunteerSignup (item : StructuredSignUpData) : VolunteerSignupInsert :=
  { position_id := item.position_ID
    volunteer_name := item.volunteer_name
    email := item.volunteer_email
    start_time := item.start_datetime
    end_time := item.end_datetime
    arrived := false }

/-- `handleSaveToSupabase` (lines 20-63): returns `none` (no insert issued)
when the imported dataset is empty, otherwise the list of records passed to
`insert`. -/
def handleSaveToSupabase (data : List StructuredSignUpData) :
    Option (List VolunteerSignupInsert) :=
  if data.length = 0 then none
  else some (data.map toVolunteerSignup)

/-! ## Concrete values used by counterexamples and witnesses -/

def signupA : Signup :=
  { id := "a", position_id := "p", volunteer_name := "Alice",
    start_time := 1, end_time := 2, arrived := false }

def signupB : Signup :=
  { id := "b", position_id := "p", volunteer_name := "Bob",
    start_time := 1, end_time := 2, arrived := false }

def dbAB : List Signup := [signupA, signupB]

def signupT1 : Signup :=
  { id := "t1", position_id := "p", volunteer_name := "Cara",
    start_time := 5, end_time := 6, arrived := false }

def signupT2 : Signup :=
  { id := "t2", position_id := "p", volunteer_name := "Dan",
    start_time := 5, end_time := 6, arrived := false }

/-- A table with two eligible signups for the same position sharing the same
`start_time`; `signupT1` was inserted first and has the smaller id. -/
def dbTie : List Signup := [signupT1, signupT2]

def issueNoPos : Issue :=
  { id := "i1", type := IssueType.info, message := "m", timestamp := "t", position := none }

def issueWithPos : Issue :=
  { id := "i2", type := IssueType.info, message := "m2", timestamp := "t2",
    position := some { id := some "p1", name := "P", event := { name := "E" } } }

def eventE1 : Event := { id := "e1", name := "E", date := "d", time := "tm" }

def sampleRow : StructuredSignUpData :=
  { id := 1, position_ID := "p", volunteer_name := "Alice",
    volunteer_email := "alice@example.com", start_date := "d",
    start_datetime := "s", end_datetime := "e", arrived := "no" }

/-! ## Helper lemmas -/

theorem take_append_take {α : Type} (A B : List α) (n : Nat) :
    (A ++ B.take n).take n = (A ++ B).take n := by
  rw [List.take_append_eq_append_take, List.take_append_eq_append_take, List.take_take]
  rw [Nat.min_eq_left (Nat.sub_le _ _)]

theorem foldl_addIssue (xs : List Issue) :
    ∀ feed : List Issue, feed.length ≤ 100 →
      xs.foldl addIssue feed = (xs.reverse ++ feed).take 100 := by
  induction xs with
  | nil =>
    intro feed h
    rw [List.foldl_nil, List.reverse_nil, List.nil_append, List.take_of_length_le h]
  | cons x rest ih =>
    intro feed h
    rw [List.foldl_cons]
    have h2 : (addIssue feed x).length ≤ 100 := by
      simp [addIssue, List.length_take]
    rw [ih _ h2]
    show (rest.reverse ++ (x :: feed).take 100).take 100 = ((x :: rest).reverse ++ feed).take 100
    rw [take_append_take]
    simp

/-! ## C3: the live issue feed is bounded to the 100 most recent entries -/

/-- C3: starting from the empty feed, after inserting the issues of `xs` in
order the feed holds exactly the most recently inserted 100 entries in
most-recent-first order (so the oldest entries beyond the bound are evicted),
and in particular never exceeds 100 entries. -/
theorem liveIssueFeed_bounded_fifo (xs : List Issue) :
    xs.foldl addIssue [] = xs.reverse.take 100 ∧ (xs.foldl addIssue []).length ≤ 100 := by
  have h := foldl_addIssue xs [] (by simp)
  rw [List.append_nil] at h
  refine ⟨h, ?_⟩
  rw [h]
  simp [List.length_take]

/-! ## C4: the staffing tick emits one warning per understaffed position -/

/-- C4: one tick of the staffing interval adds to the feed exactly one issue
per position with `filled < needed` — the fold of `addIssue` over the warning
issues of exactly those positions, in order — and adds nothing for positions
with `filled >= needed`; each emitted issue is a warning referencing its
position. -/
theorem staffingTick_emissions (uuidOf : Position → String) (now : String)
    (positions : List Position) (feed : List Issue) :
    staffingTick uuidOf now positions feed =
      ((positions.filter fun p => decide (p.filled < p.needed)).map
        fun p => mkStaffingWarning (uuidOf p) now p).foldl addIssue feed
    ∧ ∀ p : Position, (mkStaffingWarning (uuidOf p) now p).type = IssueType.warning ∧
        (mkStaffingWarning (uuidOf p) now p).position =
          some { id := some p.id, name := p.name, event := { name := p.event.name } } := by
  constructor
  · induction positions generalizing feed with
    | nil => rfl
    | cons p rest ih =>
      simp only [staffingTick, List.foldl_cons, List.filter_cons]
      by_cases h : p.filled < p.needed
      · simp only [h, decide_True, if_true, if_pos h, List.map_cons, List.foldl_cons]
        exact ih _
      · simp only [h, decide_False, if_false, if_neg h]
        exact ih _
  · intro p
    exact ⟨rfl, rfl⟩

/-! ## C6: the signup-notification handler -/

/-- C6 counterexample: with no event filter active and a failed position
lookup (`row = none`), the handler does append an issue to the feed — the
notification is not dropped. -/
theorem signupHandler_failedLookup_appends :
    signupInsertHandler none none "V" "u" "t" [] ≠ [] := by decide

/-- C6 amended: the handler never inspects whether the lookup succeeded.
An info issue is appended exactly when no event filter is active (the guard
compares a nonexistent event-id field, always `undefined`, against the
filter, so it passes only via `!selectedEventId`); with an active filter
nothing is ever appended, and with no filter exactly one info issue is
appended even when the lookup failed. -/
theorem signupHandler_spec (sid : Option String) (row : Option LookupRow)
    (v u t : String) (feed : List Issue) :
    signupInsertHandler sid row v u t feed =
      (if sid = none then addIssue feed (signupIssue row v u t) else feed)
    ∧ (signupIssue row v u t).type = IssueType.info := by
  refine ⟨?_, rfl⟩
  unfold signupInsertHandler lookupEventIdField
  by_cases h : sid = none
  · rw [if_pos (Or.inl h), if_pos h]
  · rw [if_neg ?_, if_neg h]
    rintro (h1 | h1)
    · exact h h1
    · exact h h1.symm

/-! ## C2: a checked-in volunteer disappears from the eligible list -/

/-- C2: after the arrival update for volunteer id `x`, the eligible-volunteers
query (which selects only `arrived = false` rows) never returns a row whose id
is `x`, for any position. -/
theorem volunteersQuery_excludes_checkedIn (db : List Signup) (x positionId : String) :
    ∀ s ∈ volunteersQuery (checkInUpdate db x) positionId, s.id ≠ x := by
  intro s hs hsx
  have hmem : s ∈ (checkInUpdate db x).filter
      (fun s => s.position_id == positionId && s.arrived == false) := by
    simpa [volunteersQuery] using hs
  rw [List.mem_filter] at hmem
  obtain ⟨hin, hcond⟩ := hmem
  have harr : s.arrived = false := by
    simp only [Bool.and_eq_true, beq_iff_eq] at hcond
    exact hcond.2
  obtain ⟨s0, _, heq⟩ := List.mem_map.mp hin
  by_cases h0 : (s0.id == x) = true
  · rw [if_pos h0] at heq
    rw [← heq] at harr
    simp at harr
  · rw [if_neg h0] at heq
    rw [← heq] at hsx
    exact h0 (by simp [hsx])

/-- C2 witness: in a two-signup table, checking in `"a"` leaves `"b"` in the
eligible list, and the theorem yields `"b" ≠ "a"`. -/
theorem volunteersQuery_excludes_checkedIn_witness :
    signupB ∈ volunteersQuery (checkInUpdate dbAB "a") "p" ∧ signupB.id ≠ "a" :=
  ⟨by simp +decide [volunteersQuery, checkInUpdate, dbAB, signupA, signupB,
      List.mergeSort_singleton],
   volunteersQuery_excludes_checkedIn dbAB "a" "p" signupB
     (by simp +decide [volunteersQuery, checkInUpdate, dbAB, signupA, signupB,
        List.mergeSort_singleton])⟩

/-! ## C8: the gate admits when a location is absent -/

/-- C8: whenever the user location is absent or the position's latitude or
longitude is absent, `isNearPosition` returns `true`. -/
theorem isNearPosition_of_absent (ul : Option Coords) (posLat posLng : Option ℝ)
    (h : ul = none ∨ posLat = none ∨ posLng = none) :
    isNearPosition ul posLat posLng := by
  cases ul with
  | none => trivial
  | some u =>
    cases posLat with
    | none => trivial
    | some la =>
      cases posLng with
      | none => trivial
      | some lo => rcases h with h | h | h <;> simp at h

/-- C8 witness: the gate admits a check-in with no user location. -/
theorem isNearPosition_of_absent_witness : isNearPosition none (some 1) (some 2) :=
  isNearPosition_of_absent none (some 1) (some 2) (Or.inl rfl)

/-! ## C10: imported signups start not checked in -/

/-- C10: for a non-empty imported dataset the save operation issues the insert
of exactly one record per structured row (in order), and every inserted record
has `arrived = false`. -/
theorem handleSaveToSupabase_spec (data : List StructuredSignUpData) (h : data ≠ []) :
    handleSaveToSupabase data = some (data.map toVolunteerSignup)
    ∧ (data.map toVolunteerSignup).length = data.length
    ∧ ∀ r ∈ data.map toVolunteerSignup, r.arrived = false := by
  refine ⟨?_, List.length_map _ _, ?_⟩
  · unfold handleSaveToSupabase
    rw [if_neg fun hc => h (List.length_eq_zero.mp hc)]
  · intro r hr
    obtain ⟨x, _, rfl⟩ := List.mem_map.mp hr
    rfl

/-- C10 witness: a one-row dataset produces one insert record with
`arrived = false`. -/
theorem handleSaveToSupabase_spec_witness :
    handleSaveToSupabase [sampleRow] = some ([sampleRow].map toVolunteerSignup)
    ∧ ([sampleRow].map toVolunteerSignup).length = [sampleRow].length
    ∧ ∀ r ∈ [sampleRow].map toVolunteerSignup, r.arrived = false :=
  handleSaveToSupabase_spec [sampleRow] (List.cons_ne_nil _ _)

/-! ## C5: the displayed feed filter -/

/-- C5 counterexample: with a filter active on a loaded event, an issue that
carries no position reference is not displayed (its side of the strict
equality is `undefined` while the selected event's name is a string), contrary
to the claim that such issues are always shown. -/
theorem displayedIssues_drops_unreferenced :
    issueNoPos.position = none ∧
      issueNoPos ∉ displayedIssues [issueNoPos] [eventE1] (some "e1") := by
  decide

/-- C5 amended: when a filter is active and an event with the selected id is
among the loaded events, the displayed feed contains exactly the issues whose
position reference carries that event's name; issues without a position
reference are excluded. -/
theorem displayedIssues_eventFound (issues : List Issue) (events : List Event)
    (sid : String) (e : Event)
    (h : (events.find? fun ev => ev.id == sid) = some e) (i : Issue) :
    i ∈ displayedIssues issues events (some sid) ↔
      i ∈ issues ∧ ∃ p, i.position = some p ∧ p.event.name = e.name := by
  simp [displayedIssues, List.mem_filter, h, Option.map_eq_some']

/-- C5 amended witness: with event `"e1"` loaded and selected, an issue whose
position reference names event `"E"` is displayed. -/
theorem displayedIssues_eventFound_witness :
    issueWithPos ∈ displayedIssues [issueWithPos] [eventE1] (some "e1") ↔
      issueWithPos ∈ [issueWithPos] ∧
        ∃ p, issueWithPos.position = some p ∧ p.event.name = eventE1.name :=
  displayedIssues_eventFound [issueWithPos] [eventE1] "e1" eventE1 (by simp +decide [eventE1]) issueWithPos

/-! ## C7: the eligible-volunteers query -/

/-- C7 counterexample: the query does not determine the order of rows with
equal start times. For a table with two eligible signups sharing a
`start_time` (`signupT1` inserted first, with the smaller id), the response
with the ties reversed also satisfies everything the query requests — the
source orders by the single key `start_time` — so it is not the case that
every admissible response lists the ties in insertion-order/id order. -/
theorem volunteersQuery_tiebreak_counterexample :
    ¬ ∀ result, volunteersQueryResponse dbTie "p" result →
        result = [signupT1, signupT2] := by
  intro h
  have hresp : volunteersQueryResponse dbTie "p" [signupT2, signupT1] := by
    unfold volunteersQueryResponse ordersByStartTime
    have hf : dbTie.filter (fun s => s.position_id == "p" && s.arrived == false) =
        [signupT1, signupT2] := by decide
    rw [hf]
    exact ⟨List.Perm.swap signupT1 signupT2 [], by decide⟩
  have h2 := h [signupT2, signupT1] hresp
  exact absurd h2 (by decide)

/-- C7 amended: every admissible response of the eligible-volunteers query
consists of exactly the signups of the given position with `arrived = false`,
sorted ascending by `start_time`; the relative order of equal start times is
left open by the query. -/
theorem volunteersQueryResponse_spec (db : List Signup) (positionId : String)
    (result : List Signup) (h : volunteersQueryResponse db positionId result) :
    (∀ s, s ∈ result ↔ s ∈ db ∧ s.position_id = positionId ∧ s.arrived = false)
    ∧ result.Pairwise fun a b => a.start_time ≤ b.start_time := by
  obtain ⟨hperm, hsorted⟩ := h
  refine ⟨?_, hsorted⟩
  intro s
  rw [hperm.mem_iff]
  simp [List.mem_filter, and_assoc]

/-- C7 amended witness: the insertion-order response for the tied table is
admissible, and the theorem characterizes its members and order. -/
theorem volunteersQueryResponse_spec_witness :
    (∀ s, s ∈ [signupT1, signupT2] ↔ s ∈ dbTie ∧ s.position_id = "p" ∧ s.arrived = false)
    ∧ [signupT1, signupT2].Pairwise (fun a b => a.start_time ≤ b.start_time) :=
  volunteersQueryResponse_spec dbTie "p" [signupT1, signupT2] (by
    unfold volunteersQueryResponse ordersByStartTime
    have hf : dbTie.filter (fun s => s.position_id == "p" && s.arrived == false) =
        [signupT1, signupT2] := by decide
    rw [hf]
    exact ⟨List.Perm.refl _, by decide⟩)

/-! ## C9: symmetry and self-distance of the haversine distance -/

theorem atan2_of_pos {x : ℝ} (h : 0 < x) (y : ℝ) : atan2 y x = Real.arctan (y / x) := by
  unfold atan2
  rw [if_pos h]

theorem havA_symm (lat1 lon1 lat2 lon2 : ℝ) :
    havA lat1 lon1 lat2 lon2 = havA lat2 lon2 lat1 lon1 := by
  unfold havA
  rw [show (lat1 - lat2) * Real.pi / 180 / 2 = -((lat2 - lat1) * Real.pi / 180 / 2) by ring,
      show (lon1 - lon2) * Real.pi / 180 / 2 = -((lon2 - lon1) * Real.pi / 180 / 2) by ring,
      Real.sin_neg, Real.sin_neg]
  ring

/-- C9: the distance function is symmetric in its two coordinate pairs, and
the distance from any point to itself is zero. -/
theorem calculateDistance_symm_and_self :
    (∀ lat1 lon1 lat2 lon2 : ℝ,
      calculateDistance lat1 lon1 lat2 lon2 = calculateDistance lat2 lon2 lat1 lon1)
    ∧ ∀ lat lon : ℝ, calculateDistance lat lon lat lon = 0 := by
  constructor
  · intro lat1 lon1 lat2 lon2
    rw [calculateDistance_eq, calculateDistance_eq, havA_symm]
  · intro lat lon
    have hA : havA lat lon lat lon = 0 := by
      unfold havA
      rw [sub_self, sub_self]
      simp
    rw [calculateDistance_eq, hA, Real.sqrt_zero,
        show (1:ℝ) - 0 = 1 by norm_num, Real.sqrt_one,
        atan2_of_pos (by norm_num : (0:ℝ) < 1) 0, zero_div, Real.arctan_zero]
    ring

/-! ## C1: the proximity gate against the haversine distance -/

/-- C1 counterexample: a position whose stored latitude is `0` (a legitimate
equator coordinate, but falsy in JavaScript) is admitted regardless of
distance: with the user at the north pole and the position at `(0, 50)`, the
gate returns `true` although the haversine distance (a quarter of Earth's
circumference, about 10,007 km) exceeds 200 m, so the claimed equivalence
fails. -/
theorem isNearPosition_zeroLat_breaks_iff :
    ¬ (isNearPosition (some ⟨90, 0⟩) (some 0) (some 50) ↔
        calculateDistance 90 0 0 50 ≤ 200) := by
  intro hiff
  have h2 : calculateDistance 90 0 0 50 ≤ 200 := hiff.mp (Or.inl rfl)
  have hA : havA 90 0 0 50 = 1 / 2 := by
    unfold havA
    rw [show ((0:ℝ) - 90) * Real.pi / 180 / 2 = -(Real.pi / 4) by ring,
        show (90:ℝ) * Real.pi / 180 = Real.pi / 2 by ring,
        Real.sin_neg, Real.cos_pi_div_two, Real.sin_pi_div_four]
    have hs2 : Real.sqrt 2 * Real.sqrt 2 = 2 := Real.mul_self_sqrt (by norm_num)
    linear_combination hs2 / 4
  have hd : calculateDistance 90 0 0 50 = 6371000 * (2 * (Real.pi / 4)) := by
    rw [calculateDistance_eq, hA, show (1:ℝ) - 1 / 2 = 1 / 2 by norm_num]
    have hpos : 0 < Real.sqrt (1 / 2) := Real.sqrt_pos.mpr (by norm_num)
    rw [atan2_of_pos hpos, div_self (ne_of_gt hpos), Real.arctan_one]
  rw [hd] at h2
  linarith [Real.pi_gt_three]

/-- C1 amended: when the user location is present and the position's latitude
and longitude are present and both nonzero, the gate returns `true` exactly
when the haversine distance is at most 200 meters. (A zero coordinate is
treated as absent by the JavaScript truthiness guard.) -/
theorem isNearPosition_iff_dist (u : Coords) (la lo : ℝ) (hla : la ≠ 0) (hlo : lo ≠ 0) :
    isNearPosition (some u) (some la) (some lo) ↔
      calculateDistance u.lat u.lng la lo ≤ 200 := by
  show (la = 0 ∨ lo = 0 ∨ calculateDistance u.lat u.lng la lo ≤ 200) ↔ _
  constructor
  · rintro (h | h | h)
    · exact absurd h hla
    · exact absurd h hlo
    · exact h
  · exact fun h => Or.inr (Or.inr h)

/-- C1 amended witness: the equivalence applies at the concrete nonzero
position coordinates `(1, 1)`. -/
theorem isNearPosition_iff_dist_witness :
    ((1:ℝ) ≠ 0) ∧
      (isNearPosition (some ⟨0, 0⟩) (some 1) (some 1) ↔
        calculateDistance 0 0 1 1 ≤ 200) :=
  ⟨one_ne_zero, isNearPosition_iff_dist ⟨0, 0⟩ 1 1 one_ne_zero one_ne_zero⟩

end VolunteerCheckIn
